import Mathlib

/-!
# mpd-slack-status: the event loop of `main.go`

A shallow embedding of `src/main.go`.  The two collaborators (the mpd client
and the Slack HTTP endpoint) are modelled by the answers they give while one
player event is handled; every call the program makes is recorded, in order,
in a list of actions, and the package-level variable `lastSong` is passed
explicitly.

Go strings are byte sequences: `len` counts bytes and `s[:n]` slices bytes,
so strings are lists of bytes here.
-/

namespace MpdSlackStatus

/-- Go `string`: an immutable sequence of bytes. -/
abbrev GoString := List UInt8

/-- The bytes of a Go string literal (Go source is UTF-8). -/
def lit (s : String) : GoString := s.data.flatMap String.utf8EncodeChar

/-- A non-nil Go `error` value. -/
structure GoError where
  msg : String
deriving DecidableEq, Repr

/-- Go `mpd.Attrs`, a `map[string]string`. -/
abbrev Attrs := List (GoString × GoString)

/-- Go map indexing `attrs[key]`: the zero value `""` when the key is absent. -/
def index (attrs : Attrs) (key : GoString) : GoString :=
  (List.lookup key attrs).getD []

/-- `const statusMaxLength = 100`. -/
def statusMaxLength : Nat := 100

/-- `type SlackClient struct`. -/
structure SlackClient where
  apiToken : GoString
  apiUrl : GoString
  versionUid : GoString
  defaultEmoji : GoString
  defaultText : GoString
deriving DecidableEq, Repr

/-- What the outside world answers while one player event is handled: the
result of `client.Status()`, of `client.CurrentSong()` and of
`http.PostForm`.  Each is called at most once per event. -/
structure Response where
  status : Except GoError Attrs
  currentSong : Except GoError Attrs
  postForm : Option GoError

/-- The calls the program makes to its collaborators, with the error each
returned.  `post emoji text err` is the `users.profile.set` request whose
profile is built from `status_emoji = emoji` and `status_text = text`: `text`
is the Go string that `setStatus` hands to `json.Marshal`.  The encoding done
there is not modelled: it leaves valid UTF-8 (all ASCII text in particular) as
it is and writes U+FFFD for a byte that is not part of a valid character, as
happens when the cut in `setStatus` falls inside a multi-byte character.  The
token, URL and timestamp added by `call` are not modelled either. -/
inductive Action where
  | status
  | currentSong (err : Option GoError)
  | post (emoji text : GoString) (err : Option GoError)
deriving DecidableEq, Repr

/-- Whether an action is a request to Slack. -/
def Action.isPost : Action → Bool
  | .post _ _ _ => true
  | _ => false

/-- The error an action returned to the loop (`Status` errors are swallowed by
`isPlaying`). -/
def Action.failure : Action → Option GoError
  | .status => none
  | .currentSong err => err
  | .post _ _ err => err

/-- The status text of a request to Slack. -/
def Action.text : Action → Option GoString
  | .post _ text _ => some text
  | _ => none

/-- The outcome of a piece of the program: the returned `error`, the value of
the global `lastSong` afterwards, and the calls made. -/
structure Run where
  err : Option GoError
  lastSong : GoString
  actions : List Action
deriving DecidableEq, Repr

/-- `func (slack *SlackClient) call`: the error of `http.PostForm`. -/
def SlackClient.call (_slack : SlackClient) (env : Response) : Option GoError :=
  env.postForm

/-- `func setStatus`: the text is cut when `len(text) > statusMaxLength`, then
posted. -/
def setStatus (slack : SlackClient) (emoji text : GoString) (env : Response) :
    Option GoError × List Action :=
  let text := if text.length > statusMaxLength then
      text.take (statusMaxLength - 2) ++ lit "…"
    else text
  (slack.call env, [Action.post emoji text (slack.call env)])

/-- `func isPlaying`. -/
def isPlaying (env : Response) : Bool × List Action :=
  match env.status with
  | .error _ => (false, [Action.status])
  | .ok attrs => (decide (index attrs (lit "state") = lit "play"), [Action.status])

/-- `func setCurrentSongStatus`, with the global `lastSong` as an argument. -/
def setCurrentSongStatus (slack : SlackClient) (env : Response) (lastSong : GoString) : Run :=
  match env.currentSong with
  | .error e => ⟨some e, lastSong, [Action.currentSong (some e)]⟩
  | .ok attrs =>
    let song := index attrs (lit "Title") ++ lit " - " ++ index attrs (lit "Artist")
    if song = lastSong then
      ⟨none, lastSong, [Action.currentSong none]⟩
    else
      ⟨(setStatus slack (lit ":headphones:") song env).1, song,
        Action.currentSong none :: (setStatus slack (lit ":headphones:") song env).2⟩

/-- `func resetStatus`. -/
def resetStatus (slack : SlackClient) (env : Response) (lastSong : GoString) : Run :=
  ⟨(setStatus slack slack.defaultEmoji slack.defaultText env).1, lastSong,
    (setStatus slack slack.defaultEmoji slack.defaultText env).2⟩

/-- The body of the `for` loop of `start` up to the assignment of `err`. -/
def handleEvent (slack : SlackClient) (env : Response) (lastSong : GoString) : Run :=
  let body := if (isPlaying env).1 then setCurrentSongStatus slack env lastSong
    else resetStatus slack env lastSong
  ⟨body.err, body.lastSong, (isPlaying env).2 ++ body.actions⟩

/-- `func start`: one list element per event received on `watcher.Event`; the
list ends where the channel is closed. -/
def start (slack : SlackClient) : List Response → GoString → Run
  | [], lastSong => ⟨none, lastSong, []⟩
  | env :: rest, lastSong =>
    let r := handleEvent slack env lastSong
    match r.err with
    | some e => ⟨some e, r.lastSong, r.actions⟩
    | none =>
      let r2 := start slack rest r.lastSong
      ⟨r2.err, r2.lastSong, r.actions ++ r2.actions⟩

/-- The status texts of the requests sent to Slack, in order. -/
def dispatched (actions : List Action) : List GoString :=
  actions.filterMap Action.text

/-! ## Concrete inputs -/

/-- The flag defaults of `main`: `:question:` and `I don't know`. -/
def slack0 : SlackClient :=
  { apiToken := [], apiUrl := [], versionUid := [],
    defaultEmoji := lit ":question:", defaultText := lit "I don\x27t know" }

/-- An event during which mpd plays the given title and artist and the post
returns `post`. -/
def playing (title artist : String) (post : Option GoError) : Response :=
  { status := .ok [(lit "state", lit "play")],
    currentSong := .ok [(lit "Title", lit title), (lit "Artist", lit artist)],
    postForm := post }

/-- An event during which mpd reports the given state. -/
def inState (state : String) (post : Option GoError) : Response :=
  { status := .ok [(lit "state", lit state)],
    currentSong := .ok [],
    postForm := post }

/-- A text of 101 bytes, each the letter a. -/
def longText : GoString := List.replicate 101 97

/-- The number of characters of a UTF-8 text, as Go `utf8.RuneCountInString`
counts them on valid UTF-8: the bytes that are not continuation bytes
(`10xxxxxx`).  The program never counts characters; this measure is only used
to read a statement about characters against the bytes the program handles. -/
def runeCount (s : GoString) : Nat :=
  s.countP (fun b => decide (b.toNat / 64 ≠ 2))

/-! ## Truncation in `setStatus` -/

set_option maxRecDepth 100000 in
/-- C3 (evaluated at the failing input): for the 101-byte ASCII text `aaa…a`,
whose `len` exceeds 100, the text in the request is 98 letters and the
ellipsis: its `len` is 101 and it has 99 characters, not 100, and its first 99
bytes are not the first 99 bytes of the input (the 99th letter is lost). -/
theorem truncated_text_is_not_100_long :
    longText.length > statusMaxLength ∧
    (setStatus slack0 (lit ":headphones:") longText (inState "play" none)).2
      = [Action.post (lit ":headphones:") (List.replicate 98 97 ++ [0xE2, 0x80, 0xA6]) none] ∧
    (List.replicate 98 (97 : UInt8) ++ [0xE2, 0x80, 0xA6]).length = 101 ∧
    runeCount (List.replicate 98 97 ++ [0xE2, 0x80, 0xA6]) = 99 ∧
    (List.replicate 98 (97 : UInt8) ++ [0xE2, 0x80, 0xA6]).take 99 ≠ longText.take 99 := by
  decide

set_option maxRecDepth 100000 in
/-- C4 (evaluated at the failing input): the 101-byte text `aaa…a` is posted as
98 bytes followed by the 3 bytes of the ellipsis character, 101 bytes in all,
which exceeds `statusMaxLength`. -/
theorem truncated_text_exceeds_bound :
    ∃ sent, (setStatus slack0 (lit ":question:") longText (inState "stop" none)).2
        = [Action.post (lit ":question:") sent none] ∧
      sent.length = 101 ∧ ¬ sent.length ≤ statusMaxLength :=
  ⟨List.replicate 98 97 ++ [0xE2, 0x80, 0xA6], by decide, by decide, by decide⟩

/-! ## One event -/

/-- The shape of what `setStatus` does: one request, whose error is returned. -/
theorem setStatus_eq (slack : SlackClient) (emoji text : GoString) (env : Response) :
    ∃ t, setStatus slack emoji text env = (env.postForm, [Action.post emoji t env.postForm]) :=
  ⟨_, rfl⟩

/-- The four ways one event can be handled: the default status is posted; the
song query fails; the song is the one in `lastSong` and nothing is posted; a
new song is recorded in `lastSong` and posted. -/
theorem handleEvent_cases (slack : SlackClient) (env : Response) (lastSong : GoString) :
    (∃ t, handleEvent slack env lastSong
        = ⟨env.postForm, lastSong, [.status, .post slack.defaultEmoji t env.postForm]⟩) ∨
    (∃ e, handleEvent slack env lastSong
        = ⟨some e, lastSong, [.status, .currentSong (some e)]⟩) ∨
    (handleEvent slack env lastSong = ⟨none, lastSong, [.status, .currentSong none]⟩) ∨
    (∃ song t, song ≠ lastSong ∧ handleEvent slack env lastSong
        = ⟨env.postForm, song,
            [.status, .currentSong none, .post (lit ":headphones:") t env.postForm]⟩) := by
  obtain ⟨t1, h1⟩ := setStatus_eq slack slack.defaultEmoji slack.defaultText env
  unfold handleEvent isPlaying
  cases hs : env.status with
  | error e =>
    left
    exact ⟨t1, by simp [resetStatus, h1]⟩
  | ok sattrs =>
    by_cases hp : index sattrs (lit "state") = lit "play"
    · right
      unfold setCurrentSongStatus
      cases hc : env.currentSong with
      | error e =>
        left
        exact ⟨e, by simp [hp]⟩
      | ok attrs =>
        right
        by_cases hl : index attrs (lit "Title") ++ lit " - " ++ index attrs (lit "Artist") = lastSong
        · left
          simp [hp, hl]
        · right
          obtain ⟨t2, h2⟩ := setStatus_eq slack (lit ":headphones:")
            (index attrs (lit "Title") ++ lit " - " ++ index attrs (lit "Artist")) env
          refine ⟨_, t2, hl, ?_⟩
          simp only [hp, decide_True, if_true, hl, if_false, h2, List.singleton_append,
            List.cons_append, List.nil_append]
    · left
      exact ⟨t1, by simp [hp, resetStatus, h1]⟩

/-- One event makes at most one request to Slack. -/
theorem handleEvent_countP_isPost (slack : SlackClient) (env : Response) (lastSong : GoString) :
    (handleEvent slack env lastSong).actions.countP Action.isPost ≤ 1 := by
  rcases handleEvent_cases slack env lastSong with ⟨t, h⟩ | ⟨e, h⟩ | h | ⟨song, t, _, h⟩ <;>
    simp [h, Action.isPost]

/-- An error returned for an event is the error of one of the calls made for
it. -/
theorem handleEvent_err_traced (slack : SlackClient) (env : Response) (lastSong : GoString)
    (e : GoError) (h : (handleEvent slack env lastSong).err = some e) :
    ∃ a ∈ (handleEvent slack env lastSong).actions, a.failure = some e := by
  rcases handleEvent_cases slack env lastSong with ⟨t, hc⟩ | ⟨e2, hc⟩ | hc | ⟨song, t, _, hc⟩ <;>
    rw [hc] at h ⊢ <;> simp [Action.failure] at h ⊢ <;> exact h

/-- A failed request to Slack is the last call made for its event, and its
error is the error returned for the event. -/
theorem handleEvent_failed_post (slack : SlackClient) (env : Response) (lastSong : GoString)
    (emoji text : GoString) (e : GoError)
    (h : Action.post emoji text (some e) ∈ (handleEvent slack env lastSong).actions) :
    (handleEvent slack env lastSong).err = some e ∧
      (handleEvent slack env lastSong).actions.getLast? = some (Action.post emoji text (some e)) := by
  rcases handleEvent_cases slack env lastSong with ⟨t, hc⟩ | ⟨e2, hc⟩ | hc | ⟨song, t, _, hc⟩ <;>
    rw [hc] at h ⊢ <;> simp at h ⊢
  · obtain ⟨h1, h2, h3⟩ := h
    simp [h1, h2, h3]
  · obtain ⟨h1, h2, h3⟩ := h
    simp [h1, h2, h3]

/-- While mpd plays (state `play`, `CurrentSong` succeeds), for every title
and artist with `len(title + " - " + artist) ≤ 99` and that text different
from the variable `lastSong`, the event makes exactly one request to Slack,
with emoji `:headphones:` and text exactly `title + " - " + artist`. -/
theorem handleEvent_new_song (slack : SlackClient) (env : Response) (lastSong : GoString)
    (sattrs attrs : Attrs) (title artist : GoString)
    (hs : env.status = .ok sattrs) (hp : index sattrs (lit "state") = lit "play")
    (hc : env.currentSong = .ok attrs)
    (ht : index attrs (lit "Title") = title) (ha : index attrs (lit "Artist") = artist)
    (hlen : (title ++ lit " - " ++ artist).length ≤ 99)
    (hne : title ++ lit " - " ++ artist ≠ lastSong) :
    (handleEvent slack env lastSong).actions
      = [Action.status, Action.currentSong none,
          Action.post (lit ":headphones:") (title ++ lit " - " ++ artist) env.postForm] ∧
    (handleEvent slack env lastSong).actions.countP Action.isPost = 1 := by
  have hlen2 : ¬ 100 < List.length title + (List.length (lit " - ") + List.length artist) := by
    simp only [List.length_append] at hlen
    omega
  have hne2 : ¬ title ++ (lit " - " ++ artist) = lastSong := by simpa using hne
  simp [handleEvent, isPlaying, setCurrentSongStatus, setStatus, SlackClient.call,
    statusMaxLength, hs, hp, hc, ht, ha, hne2, hlen2, Action.isPost]

set_option maxRecDepth 100000 in
/-- C5 (evaluated at the failing input): `Song - Artist` is posted, mpd is
paused and the default text is posted, then the same song plays again.  The
last text sent is the default text, the song text is 13 bytes long and differs
from it, yet the third event makes no request to Slack: `lastSong` still
holds `Song - Artist`. -/
theorem resumed_song_not_dispatched :
    dispatched (start slack0 [playing "Song" "Artist" none, inState "pause" none] []).actions
      = [lit "Song - Artist", lit "I don\x27t know"] ∧
    (lit "Song" ++ lit " - " ++ lit "Artist").length ≤ 99 ∧
    lit "Song" ++ lit " - " ++ lit "Artist" ≠ lit "I don\x27t know" ∧
    (start slack0 [playing "Song" "Artist" none, inState "pause" none] []).lastSong
      = lit "Song - Artist" ∧
    handleEvent slack0 (playing "Song" "Artist" none)
        (start slack0 [playing "Song" "Artist" none, inState "pause" none] []).lastSong
      = ⟨none, lit "Song - Artist", [Action.status, Action.currentSong none]⟩ ∧
    dispatched (start slack0 [playing "Song" "Artist" none, inState "pause" none,
        playing "Song" "Artist" none] []).actions
      = [lit "Song - Artist", lit "I don\x27t know"] := by
  decide

/-- C6: while mpd is not playing (`Status` fails, or reports a state other than
`play`), with a default text within the bound, the event posts exactly the
default emoji and the default text, and `CurrentSong` is not called. -/
theorem not_playing_dispatches_default (slack : SlackClient) (env : Response)
    (lastSong : GoString)
    (hlen : slack.defaultText.length ≤ statusMaxLength)
    (hnp : ∀ attrs, env.status = .ok attrs → index attrs (lit "state") ≠ lit "play") :
    (handleEvent slack env lastSong).actions
      = [Action.status, Action.post slack.defaultEmoji slack.defaultText env.postForm] ∧
    ∀ err, Action.currentSong err ∉ (handleEvent slack env lastSong).actions := by
  have hlen2 : ¬ 100 < slack.defaultText.length := by
    simp only [statusMaxLength] at hlen
    omega
  have key : (handleEvent slack env lastSong).actions
      = [Action.status, Action.post slack.defaultEmoji slack.defaultText env.postForm] := by
    unfold handleEvent isPlaying
    cases hs : env.status with
    | error e => simp [resetStatus, setStatus, SlackClient.call, statusMaxLength, hlen2]
    | ok sattrs =>
      have := hnp sattrs hs
      simp [resetStatus, setStatus, SlackClient.call, statusMaxLength, hlen2, this]
  refine ⟨key, ?_⟩
  intro err
  simp [key]

set_option maxRecDepth 100000 in
/-- C6 at the defaults `:question:` and `I don't know`, once with mpd paused
and once with a failing `Status`. -/
theorem not_playing_dispatches_default_witness :
    ((handleEvent slack0 (inState "pause" none) (lit "Song - Artist")).actions
      = [Action.status, Action.post (lit ":question:") (lit "I don\x27t know") none] ∧
    ∀ err, Action.currentSong err ∉
      (handleEvent slack0 (inState "pause" none) (lit "Song - Artist")).actions) ∧
    (handleEvent slack0 ⟨.error ⟨"EOF"⟩, .error ⟨"EOF"⟩, none⟩ []).actions
      = [Action.status, Action.post (lit ":question:") (lit "I don\x27t know") none] :=
  ⟨not_playing_dispatches_default slack0 (inState "pause" none) (lit "Song - Artist")
    (by decide) (by intro attrs h; cases h; decide),
   (not_playing_dispatches_default slack0 ⟨.error ⟨"EOF"⟩, .error ⟨"EOF"⟩, none⟩ []
    (by decide) (by intro attrs h; cases h)).1⟩

/-- C10 (as stated, refuted): a new song is played and the request to Slack
fails; `lastSong` was empty before the event and is `Song - Artist` after it. -/
theorem lastSong_changed_by_failed_dispatch :
    (handleEvent slack0 (playing "Song" "Artist" (some ⟨"connection refused"⟩)) []).err
      = some ⟨"connection refused"⟩ ∧
    (handleEvent slack0 (playing "Song" "Artist" (some ⟨"connection refused"⟩)) []).actions
      = [Action.status, Action.currentSong none,
          Action.post (lit ":headphones:") (lit "Song - Artist") (some ⟨"connection refused"⟩)] ∧
    (handleEvent slack0 (playing "Song" "Artist" (some ⟨"connection refused"⟩)) []).lastSong
      = lit "Song - Artist" ∧
    (handleEvent slack0 (playing "Song" "Artist" (some ⟨"connection refused"⟩)) []).lastSong
      ≠ [] := by
  decide

/-- C10 (amended): `lastSong` is changed only when a request to Slack is made:
if the event makes no request, or mpd is not playing and the request made
(of the default status) fails, `lastSong` after the event is `lastSong` before
it; if mpd plays a song whose text differs from `lastSong`, one request for it
is made and `lastSong` after the event is that text, whatever error the
request returns. -/
theorem lastSong_after_event (slack : SlackClient) (env : Response) (lastSong : GoString) :
    ((∀ a ∈ (handleEvent slack env lastSong).actions, a.isPost = false) →
      (handleEvent slack env lastSong).lastSong = lastSong) ∧
    (∀ e, (isPlaying env).1 = false → (handleEvent slack env lastSong).err = some e →
      (handleEvent slack env lastSong).lastSong = lastSong) ∧
    (∀ attrs, (isPlaying env).1 = true → env.currentSong = .ok attrs →
      index attrs (lit "Title") ++ lit " - " ++ index attrs (lit "Artist") ≠ lastSong →
      (∃ t, (handleEvent slack env lastSong).actions
          = [Action.status, Action.currentSong none,
              Action.post (lit ":headphones:") t env.postForm]) ∧
      (handleEvent slack env lastSong).err = env.postForm ∧
      (handleEvent slack env lastSong).lastSong
        = index attrs (lit "Title") ++ lit " - " ++ index attrs (lit "Artist")) := by
  refine ⟨?_, ?_, ?_⟩
  · intro h
    rcases handleEvent_cases slack env lastSong with ⟨t, hc⟩ | ⟨e2, hc⟩ | hc | ⟨song, t, _, hc⟩
    · rw [hc]
    · rw [hc]
    · rw [hc]
    · rw [hc] at h
      simp [Action.isPost] at h
  · intro e hp _
    simp [handleEvent, hp, resetStatus]
  · intro attrs hp hc hne
    obtain ⟨t, ht⟩ := setStatus_eq slack (lit ":headphones:")
      (index attrs (lit "Title") ++ lit " - " ++ index attrs (lit "Artist")) env
    have hst : (isPlaying env).2 = [Action.status] := by
      unfold isPlaying
      cases env.status <;> rfl
    have hev : handleEvent slack env lastSong
        = ⟨env.postForm, index attrs (lit "Title") ++ lit " - " ++ index attrs (lit "Artist"),
            [Action.status, Action.currentSong none,
              Action.post (lit ":headphones:") t env.postForm]⟩ := by
      simp only [handleEvent, hp, if_true, setCurrentSongStatus, hc, hne, if_false, ht, hst,
        List.singleton_append]
    rw [hev]
    exact ⟨⟨t, rfl⟩, rfl, rfl⟩

set_option maxRecDepth 100000 in
/-- C10 (amended), at three events: the song in `lastSong` still plays and no
request is made; mpd is paused and the request fails; a new song plays and
the request fails. -/
theorem lastSong_after_event_witness :
    (handleEvent slack0 (playing "Song" "Artist" none) (lit "Song - Artist")).lastSong
      = lit "Song - Artist" ∧
    (handleEvent slack0 (inState "pause" (some ⟨"timeout"⟩)) (lit "Song - Artist")).lastSong
      = lit "Song - Artist" ∧
    (handleEvent slack0 (playing "Song" "Artist" (some ⟨"timeout"⟩)) []).err
      = some ⟨"timeout"⟩ ∧
    (handleEvent slack0 (playing "Song" "Artist" (some ⟨"timeout"⟩)) []).lastSong
      = lit "Song" ++ lit " - " ++ lit "Artist" :=
  ⟨(lastSong_after_event slack0 (playing "Song" "Artist" none) (lit "Song - Artist")).1
      (by decide),
   (lastSong_after_event slack0 (inState "pause" (some ⟨"timeout"⟩))
      (lit "Song - Artist")).2.1 ⟨"timeout"⟩ (by decide) (by decide),
   ((lastSong_after_event slack0 (playing "Song" "Artist" (some ⟨"timeout"⟩)) []).2.2
      [(lit "Title", lit "Song"), (lit "Artist", lit "Artist")]
      (by decide) rfl (by decide)).2.1,
   ((lastSong_after_event slack0 (playing "Song" "Artist" (some ⟨"timeout"⟩)) []).2.2
      [(lit "Title", lit "Song"), (lit "Artist", lit "Artist")]
      (by decide) rfl (by decide)).2.2⟩

/-! ## The loop -/

/-- The loop breaks at an event that returns an error. -/
theorem start_cons_err (slack : SlackClient) (env : Response) (rest : List Response)
    (lastSong : GoString) (e : GoError) (h : (handleEvent slack env lastSong).err = some e) :
    start slack (env :: rest) lastSong
      = ⟨some e, (handleEvent slack env lastSong).lastSong,
          (handleEvent slack env lastSong).actions⟩ := by
  simp [start, h]

/-- The loop goes on to the next event after an event that returns `nil`. -/
theorem start_cons_ok (slack : SlackClient) (env : Response) (rest : List Response)
    (lastSong : GoString) (h : (handleEvent slack env lastSong).err = none) :
    start slack (env :: rest) lastSong
      = ⟨(start slack rest (handleEvent slack env lastSong).lastSong).err,
          (start slack rest (handleEvent slack env lastSong).lastSong).lastSong,
          (handleEvent slack env lastSong).actions
            ++ (start slack rest (handleEvent slack env lastSong).lastSong).actions⟩ := by
  simp [start, h]

/-- Events handled without error are followed by the handling of the rest. -/
theorem start_append (slack : SlackClient) (pre rest : List Response) (lastSong : GoString)
    (h : (start slack pre lastSong).err = none) :
    start slack (pre ++ rest) lastSong
      = ⟨(start slack rest (start slack pre lastSong).lastSong).err,
          (start slack rest (start slack pre lastSong).lastSong).lastSong,
          (start slack pre lastSong).actions
            ++ (start slack rest (start slack pre lastSong).lastSong).actions⟩ := by
  induction pre generalizing lastSong with
  | nil => simp [start]
  | cons env pre ih =>
    cases he : (handleEvent slack env lastSong).err with
    | some e =>
      rw [start_cons_err slack env pre lastSong e he] at h
      simp at h
    | none =>
      rw [start_cons_ok slack env pre lastSong he] at h
      simp only at h
      rw [List.cons_append, start_cons_ok slack env (pre ++ rest) lastSong he,
        ih _ h, start_cons_ok slack env pre lastSong he]
      simp

/-- The loop makes at most one request to Slack per event. -/
theorem start_countP_isPost (slack : SlackClient) (events : List Response) (lastSong : GoString) :
    (start slack events lastSong).actions.countP Action.isPost ≤ events.length := by
  induction events generalizing lastSong with
  | nil => simp [start]
  | cons env rest ih =>
    have h1 := handleEvent_countP_isPost slack env lastSong
    cases he : (handleEvent slack env lastSong).err with
    | some e =>
      rw [start_cons_err slack env rest lastSong e he]
      simp only [List.length_cons]
      omega
    | none =>
      rw [start_cons_ok slack env rest lastSong he]
      have h2 := ih (handleEvent slack env lastSong).lastSong
      simp only [List.countP_append, List.length_cons]
      omega

set_option maxRecDepth 100000 in
/-- C1 (evaluated at the failing input): mpd is paused, then stopped; both
events post the default text, so two consecutive requests carry the same
text. -/
theorem default_text_sent_twice_in_a_row :
    (start slack0 [inState "pause" none, inState "stop" none] []).err = none ∧
    (start slack0 [inState "pause" none, inState "stop" none] []).actions
      = [Action.status, Action.post (lit ":question:") (lit "I don\x27t know") none,
         Action.status, Action.post (lit ":question:") (lit "I don\x27t know") none] := by
  decide

set_option maxRecDepth 100000 in
/-- C2 (evaluated at the failing input): the computed statuses are
`[A, A, B, B, A]` with `A` the song `Song - Artist` and `B` the default text;
the requests carry `A, B, B`, not `A, B, A`. -/
theorem song_not_resent_after_default :
    dispatched (start slack0
        [playing "Song" "Artist" none, playing "Song" "Artist" none,
         inState "pause" none, inState "pause" none,
         playing "Song" "Artist" none] []).actions
      = [lit "Song - Artist", lit "I don\x27t know", lit "I don\x27t know"] ∧
    dispatched (start slack0
        [playing "Song" "Artist" none, playing "Song" "Artist" none,
         inState "pause" none, inState "pause" none,
         playing "Song" "Artist" none] []).actions
      ≠ [lit "Song - Artist", lit "I don\x27t know", lit "Song - Artist"] := by
  decide

/-- C7: when an event finds mpd playing and `CurrentSong` fails, no request to
Slack is made for it, the loop stops (the events after it change nothing) and
`start` returns the error of `CurrentSong`. -/
theorem currentSong_failure_stops (slack : SlackClient) (pre : List Response) (env : Response)
    (post : List Response) (lastSong : GoString) (sattrs : Attrs) (e : GoError)
    (hpre : (start slack pre lastSong).err = none)
    (hs : env.status = .ok sattrs) (hp : index sattrs (lit "state") = lit "play")
    (hc : env.currentSong = .error e) :
    start slack (pre ++ env :: post) lastSong
      = ⟨some e, (start slack pre lastSong).lastSong,
          (start slack pre lastSong).actions ++ [Action.status, Action.currentSong (some e)]⟩ := by
  have hev : handleEvent slack env (start slack pre lastSong).lastSong
      = ⟨some e, (start slack pre lastSong).lastSong,
          [Action.status, Action.currentSong (some e)]⟩ := by
    simp [handleEvent, isPlaying, setCurrentSongStatus, hs, hp, hc]
  rw [start_append slack pre (env :: post) lastSong hpre,
    start_cons_err slack env post _ e (by rw [hev])]
  simp [hev]

set_option maxRecDepth 100000 in
/-- C7 at three events: a song is posted, then `CurrentSong` fails while mpd
plays, and the third event is never handled. -/
theorem currentSong_failure_stops_witness :
    start slack0 ([playing "Song" "Artist" none]
        ++ ⟨.ok [(lit "state", lit "play")], .error ⟨"EOF"⟩, none⟩
          :: [inState "stop" none]) []
      = ⟨some ⟨"EOF"⟩, (start slack0 [playing "Song" "Artist" none] []).lastSong,
          (start slack0 [playing "Song" "Artist" none] []).actions
            ++ [Action.status, Action.currentSong (some ⟨"EOF"⟩)]⟩ :=
  currentSong_failure_stops slack0 [playing "Song" "Artist" none]
    ⟨.ok [(lit "state", lit "play")], .error ⟨"EOF"⟩, none⟩ [inState "stop" none] []
    [(lit "state", lit "play")] ⟨"EOF"⟩ (by decide) rfl (by decide) rfl

/-- C8: when the events before `env` are handled without error and the request
to Slack made for `env` fails with `e`, `start` returns `e`, that request is
the last call made, the events after `env` change nothing (no query and no
request is made for them), and the number of requests is at most the position
of `env`. -/
theorem failed_dispatch_stops (slack : SlackClient) (pre : List Response) (env : Response)
    (post : List Response) (lastSong emoji text : GoString) (e : GoError)
    (hpre : (start slack pre lastSong).err = none)
    (hfail : Action.post emoji text (some e)
      ∈ (handleEvent slack env (start slack pre lastSong).lastSong).actions) :
    (start slack (pre ++ env :: post) lastSong).err = some e ∧
    (start slack (pre ++ env :: post) lastSong).actions
      = (start slack pre lastSong).actions
          ++ (handleEvent slack env (start slack pre lastSong).lastSong).actions ∧
    (start slack (pre ++ env :: post) lastSong).actions.getLast?
      = some (Action.post emoji text (some e)) ∧
    start slack (pre ++ env :: post) lastSong = start slack (pre ++ [env]) lastSong ∧
    (start slack (pre ++ env :: post) lastSong).actions.countP Action.isPost
      ≤ pre.length + 1 := by
  obtain ⟨herr, hlast⟩ := handleEvent_failed_post slack env _ emoji text e hfail
  have hrun : ∀ rest, start slack (pre ++ env :: rest) lastSong
      = ⟨some e, (handleEvent slack env (start slack pre lastSong).lastSong).lastSong,
          (start slack pre lastSong).actions
            ++ (handleEvent slack env (start slack pre lastSong).lastSong).actions⟩ := by
    intro rest
    rw [start_append slack pre (env :: rest) lastSong hpre,
      start_cons_err slack env rest _ e herr]
  refine ⟨by rw [hrun], by rw [hrun], ?_, by rw [hrun, hrun], ?_⟩
  · rw [hrun]
    simp only
    rw [List.getLast?_append, hlast]
    simp
  · have h := start_countP_isPost slack (pre ++ [env]) lastSong
    rw [hrun post, ← hrun []]
    simpa using h

set_option maxRecDepth 100000 in
/-- C8 at three events: the second request fails and the third event is never
handled. -/
theorem failed_dispatch_stops_witness :
    (start slack0 ([playing "Song" "Artist" none]
        ++ inState "pause" (some ⟨"timeout"⟩) :: [playing "Other" "Artist" none]) []).err
      = some ⟨"timeout"⟩ :=
  (failed_dispatch_stops slack0 [playing "Song" "Artist" none]
    (inState "pause" (some ⟨"timeout"⟩)) [playing "Other" "Artist" none] []
    (lit ":question:") (lit "I don\x27t know") ⟨"timeout"⟩ (by decide) (by decide)).1

set_option maxRecDepth 100000 in
/-- C9 (as stated, refuted): when the event channel is closed at once, or after
two events handled without failure, `start` returns `nil`. -/
theorem end_of_events_returns_nil :
    (start slack0 [] []).err = none ∧
    (start slack0 [playing "Song" "Artist" none, inState "stop" none] []).err = none := by
  decide

/-- C9 (amended): for every finite sequence of events, the empty one included,
when the event channel is closed after it and none of the calls made
(requests to Slack, `CurrentSong` queries) failed, `start` returns `nil`. -/
theorem start_returns_nil (slack : SlackClient) (events : List Response) (lastSong : GoString)
    (h : ∀ a ∈ (start slack events lastSong).actions, a.failure = none) :
    (start slack events lastSong).err = none := by
  induction events generalizing lastSong with
  | nil => simp [start]
  | cons env rest ih =>
    cases he : (handleEvent slack env lastSong).err with
    | some e =>
      rw [start_cons_err slack env rest lastSong e he] at h
      obtain ⟨a, ha, hf⟩ := handleEvent_err_traced slack env lastSong e he
      have := h a ha
      rw [hf] at this
      cases this
    | none =>
      rw [start_cons_ok slack env rest lastSong he] at h ⊢
      exact ih _ (fun a ha => h a (List.mem_append_right _ ha))

set_option maxRecDepth 100000 in
/-- C9 (amended), at two events: a song, then a pause, both posted. -/
theorem start_returns_nil_witness :
    (start slack0 [playing "Song" "Artist" none, inState "pause" none] []).err = none :=
  start_returns_nil slack0 [playing "Song" "Artist" none, inState "pause" none] []
    (by decide)

end MpdSlackStatus
